import Mathlib

/-!
Formal model of the orchestration core of the `vice` overlay application:
the system-audio recording state machine (`src/audio/recorder.js`), the
screen-capture and image-normalization pipeline (`src/screen/capturer.js`),
and the AI gateway's prompt construction and error classification
(`src/ai/gemini.js`).  Each definition is a shallow embedding of the
correspondingly named JavaScript function; external collaborators (the
spawned `sox` process, the `screenshot-desktop` and `jimp` libraries, the
Gemini SDK) appear as explicit parameters supplying their results, so the
repository code's own control flow is what the theorems are about.
-/

/-- Whether the first character list starts the second one. -/
def leadsWith : List Char → List Char → Bool
  | [], _ => true
  | _ :: _, [] => false
  | p :: ps, c :: cs => p == c && leadsWith ps cs

/-- Whether the first character list occurs contiguously inside the second. -/
def occursIn (pat : List Char) : List Char → Bool
  | [] => leadsWith pat []
  | c :: cs => leadsWith pat (c :: cs) || occursIn pat cs

/-- Substring test, modelling JavaScript `String.prototype.includes`. -/
def includes (s pat : String) : Bool :=
  occursIn pat.data s.data

/-! ## Recorder state (`src/audio/recorder.js`, class `SystemAudioRecorder`)

Fields of the JS object that the claims touch: `isRecording`, `recording`
(the spawned sox `ChildProcess`, `null` before the first start, modelled as
an `Option` process id) and `currentRecordingFile`.  The ghost field `live`
counts capture processes currently running: `spawn` (line 52) increments
it, the `SIGINT` kill (line 87) decrements it.  Node's `spawn` returns a
process handle synchronously (failures are delivered on the `error` event,
which the code only logs), so the spawn step itself is modelled as always
yielding a handle. -/

structure RecState where
  isRecording : Bool
  recording : Option Nat
  currentRecordingFile : Option String
  live : Nat
  deriving DecidableEq, Repr

/-- Error message thrown at recorder.js line 44 (the `AlreadyRecording` failure). -/
def alreadyRecordingMsg : String := "Recording already in progress"

/-- Error message thrown at recorder.js line 83 (the `NotRecording` failure). -/
def notRecordingMsg : String := "No recording in progress"

/-- Constructor state (recorder.js lines 9-12): not recording, no process, no file. -/
def initRecState : RecState :=
  { isRecording := false, recording := none, currentRecordingFile := none, live := 0 }

/-- recorder.js lines 42-75.  Guard (line 43): if already recording, throw with the
state untouched.  Otherwise allocate `recording_<timestamp>.wav` under the temp
directory, spawn sox (`pid` is the handle the environment assigns), set
`isRecording`, and return the file path. -/
def startRecording (s : RecState) (timestamp pid : Nat) :
    Except String String × RecState :=
  if s.isRecording then
    (.error alreadyRecordingMsg, s)
  else
    let file := "temp/recording_" ++ toString timestamp ++ ".wav"
    (.ok file,
      { isRecording := true, recording := some pid,
        currentRecordingFile := some file, live := s.live + 1 })

/-- recorder.js lines 81-100.  Guard (line 82): `!this.isRecording || !this.recording`
throws with the state untouched.  Otherwise kill the sox process (`live` drops by
one), clear `isRecording`, wait one second, and return `currentRecordingFile`.
`fileSize` is the size the environment reports for the output file; the code never
reads it — there is no emptiness check, no `Failed` state and no `RecordingEmpty`
error anywhere in the file. -/
def stopRecording (s : RecState) (fileSize : Nat) :
    Except String (Option String) × RecState :=
  if !s.isRecording || s.recording.isNone then
    (.error notRecordingMsg, s)
  else
    (.ok s.currentRecordingFile, { s with isRecording := false, live := s.live - 1 })

/-- One external call against the recorder: a start (with the environment's
timestamp and spawned pid) or a stop (with the environment's file size). -/
inductive RecOp where
  | start (timestamp pid : Nat)
  | stop (fileSize : Nat)
  deriving DecidableEq, Repr

/-- State left behind by one recorder call (the thrown/returned value discarded). -/
def stepRec (s : RecState) (op : RecOp) : RecState :=
  match op with
  | .start t p => (startRecording s t p).2
  | .stop n => (stopRecording s n).2

/-- State after a whole sequence of recorder calls from a given state. -/
def runRec (s : RecState) (ops : List RecOp) : RecState :=
  ops.foldl stepRec s

/-- Single-flight invariant: a capture process is live exactly while `isRecording`. -/
def RecInv (s : RecState) : Prop :=
  s.live = (if s.isRecording then 1 else 0)

theorem stepRec_inv (s : RecState) (op : RecOp) (h : RecInv s) : RecInv (stepRec s op) := by
  unfold RecInv at h ⊢
  cases op with
  | start t p =>
    by_cases hr : s.isRecording <;>
      simp [stepRec, startRecording, hr] <;> simp [hr] at h <;> omega
  | stop n =>
    by_cases hr : s.isRecording
    · by_cases hp : s.recording.isNone <;>
        simp [stepRec, stopRecording, hr, hp] <;> simp [hr] at h <;> omega
    · simp [stepRec, stopRecording, hr]
      simp [hr] at h
      exact h

theorem runRec_inv (ops : List RecOp) (s : RecState) (h : RecInv s) :
    RecInv (runRec s ops) := by
  induction ops generalizing s with
  | nil => exact h
  | cons op rest ih => exact ih (stepRec s op) (stepRec_inv s op h)

/-- C1: startRecording called while a recording is already in progress fails with the
AlreadyRecording error and leaves the recorder state unchanged; stopRecording called
while no recording is in progress fails with the NotRecording error and leaves the
state unchanged; and along every sequence of calls from the initial state at most one
capture process is live at a time. -/
theorem recorder_single_flight :
    (∀ (s : RecState) (t p : Nat), s.isRecording = true →
      startRecording s t p = (.error alreadyRecordingMsg, s)) ∧
    (∀ (s : RecState) (n : Nat), s.isRecording = false →
      stopRecording s n = (.error notRecordingMsg, s)) ∧
    (∀ ops : List RecOp, (runRec initRecState ops).live ≤ 1) := by
  refine ⟨?_, ?_, ?_⟩
  · intro s t p h
    simp [startRecording, h]
  · intro s n h
    simp [stopRecording, h]
  · intro ops
    have h := runRec_inv ops initRecState (by simp [RecInv, initRecState])
    unfold RecInv at h
    rw [h]
    split <;> omega

theorem recorder_single_flight_witness :
    startRecording
        { isRecording := true, recording := some 7,
          currentRecordingFile := some "temp/recording_0.wav", live := 1 } 1 8
      = (.error alreadyRecordingMsg,
        { isRecording := true, recording := some 7,
          currentRecordingFile := some "temp/recording_0.wav", live := 1 }) ∧
    stopRecording initRecState 5 = (.error notRecordingMsg, initRecState) ∧
    (runRec initRecState [.start 0 3, .stop 0, .start 1 4, .start 2 5]).live ≤ 1 :=
  ⟨recorder_single_flight.1 _ 1 8 rfl,
   recorder_single_flight.2.1 initRecState 5 rfl,
   recorder_single_flight.2.2 [.start 0 3, .stop 0, .start 1 4, .start 2 5]⟩

/-- C2 counterexample: after a start, stopping while the capture process produced a
zero-length output file (`fileSize = 0`) still returns the file path as a success —
the code performs no emptiness check, so the claimed `RecordingEmpty` failure never
happens. -/
theorem stopRecording_empty_file_counterexample :
    (stopRecording ((startRecording initRecState 123 9).2) 0).1
      = .ok (some "temp/recording_123.wav") := rfl

/-- C2 amended: stopRecording in the Recording state returns the current recording
file path as a success and clears `isRecording`, for every reported output file size
including zero; the code has no emptiness check, no Failed state and no
RecordingEmpty error. -/
theorem stopRecording_ignores_file_size (s : RecState) (n : Nat)
    (h1 : s.isRecording = true) (h2 : s.recording.isNone = false) :
    (stopRecording s n).1 = .ok s.currentRecordingFile ∧
    (stopRecording s n).2.isRecording = false := by
  simp [stopRecording, h1, h2]

theorem stopRecording_ignores_file_size_witness :
    (stopRecording ((startRecording initRecState 123 9).2) 0).1
        = .ok ((startRecording initRecState 123 9).2).currentRecordingFile ∧
    (stopRecording ((startRecording initRecState 123 9).2) 0).2.isRecording = false :=
  stopRecording_ignores_file_size ((startRecording initRecState 123 9).2) 0 rfl rfl

/-! ## AI gateway (`src/ai/gemini.js`, class `GeminiClient`)

Provider parts (the Gemini SDK `generateContent` payload) are `{text}` or
`{inlineData: {data, mimeType}}` entries; `inlineData.data` carries the
buffer bytes whose base64 rendering the JS code sends — base64 is a
bijective re-encoding, so which parts get attached is unaffected by
eliding it.  The provider itself is an explicit function parameter that
either returns response text or throws an error message. -/

inductive GemPart where
  | text (s : String)
  | inlineData (data : List Nat) (mimeType : String)
  deriving DecidableEq, Repr

/-- gemini.js lines 295-296: quota branch of `handleError`. -/
def quotaExceededMsg : String :=
  "‚ö†Ô∏è API Quota Exceeded\n\nYou've reached your Gemini API limit. Try:\n1. Wait a few minutes and try again\n2. Check your billing at https://makersuite.google.com\n3. Use a different API key"

/-- gemini.js lines 297-298: API-key branch of `handleError`. -/
def apiKeyErrorMsg : String :=
  "üîë API Key Error\n\nYour Gemini API key seems invalid. Please:\n1. Check your .env file\n2. Get a new key from https://makersuite.google.com/app/apikey\n3. Make sure the key is correctly set"

/-- gemini.js lines 299-300: audio/media branch of `handleError`. -/
def audioProcessingErrorMsg : String :=
  "üéµ Audio Processing Error\n\nFailed to process audio. This might be due to:\n1. Unsupported audio format\n2. Audio file too large\n3. Network connectivity issues\n\nTry recording again with a shorter message."

/-- gemini.js line 302: catch-all branch of `handleError`, interpolating the message. -/
def genericAIErrorMsg (message : String) : String :=
  "‚ùå AI Error\n\nSomething went wrong: " ++ message ++
    "\n\nPlease try again or check your internet connection."

/-- gemini.js lines 294-304: ordered pattern match on the provider error message. -/
def handleError (message : String) : String :=
  if includes message "429" || includes message "quota" then
    quotaExceededMsg
  else if includes message "401" || includes message "API key" then
    apiKeyErrorMsg
  else if includes message "audio" || includes message "media" then
    audioProcessingErrorMsg
  else
    genericAIErrorMsg message

/-- gemini.js lines 224-235: the text prompt template. -/
def buildTextPrompt (text context : String) : String :=
  "You are a helpful AI assistant integrated into a stealth overlay application. \nProvide concise, accurate, and helpful responses to user queries.\n\n" ++
    (if context != "" then "Context: " ++ context ++ "\n" else "") ++
    "\n\nUser Query: " ++ text ++ "\n\nPlease provide a clear and helpful response:"

/-- gemini.js lines 242-257: the audio prompt; the no-custom-prompt branch is the
category default (music / speech / meeting / game / ambient). -/
def buildAudioPrompt (customPrompt : String) : String :=
  if customPrompt != "" then
    "Listen to this system audio and " ++ customPrompt ++
      ". Provide a detailed but concise response."
  else
    "Please listen to this system audio recording and provide a helpful response. This audio was captured from the computer's system audio output. Analyze what you hear and respond appropriately:\n\n1. If it's music - identify the genre, mood, or any recognizable elements\n2. If it's speech/dialogue - summarize the key points or content\n3. If it's a video/movie - describe what's happening in the audio\n4. If it's a meeting/call - summarize the discussion points\n5. If it's game audio - describe the game sounds or music\n6. If it's ambient/background noise - describe the environment\n\nProvide a clear and organized response based on the audio content."

/-- gemini.js lines 264-276: the image prompt. -/
def buildImagePrompt (customPrompt : String) : String :=
  if customPrompt != "" then
    "Analyze this screenshot and " ++ customPrompt ++
      ". Provide a detailed but concise response."
  else
    "Please analyze this screenshot and describe what you see. Focus on:\n1. Main content and purpose of the screen\n2. Any notable UI elements or applications visible\n3. Text content that might be relevant\n4. Suggested actions or insights based on what's shown\n\nProvide a clear and organized response."

/-- gemini.js lines 283-287: the multimodal prompt. -/
def buildMultimodalPrompt (text : String) : String :=
  "User request: " ++ text ++
    "\n\nPlease analyze any provided media (images, audio) in the context of this request and provide a helpful response."

/-- gemini.js lines 51-68, buffer-free path.  `detailedPrompt` is the module-level
`DETAILED_PROMPT` loaded from `prompt.txt` at startup (empty when the file is
missing); `provider` is the SDK round trip on the built prompt.  A provider throw is
caught and `handleError`'s formatted text is returned as the ordinary result. -/
def processText (detailedPrompt text context : String)
    (provider : String → Except String String) : String :=
  let promptContext := detailedPrompt ++ (if context != "" then "\n" ++ context else "")
  let prompt := buildTextPrompt text promptContext
  match provider prompt with
  | .ok responseText => responseText
  | .error e => handleError e

/-- gemini.js lines 109-140, `Buffer.isBuffer` branch.  The image part is the
buffer (sent base64-encoded) tagged `image/jpeg`; a provider throw is caught and
`handleError`'s text returned. -/
def processImage (detailedPrompt : String) (imageBuffer : List Nat) (prompt : String)
    (provider : List GemPart → Except String String) : String :=
  let imagePart := GemPart.inlineData imageBuffer "image/jpeg"
  let textPrompt :=
    buildImagePrompt (detailedPrompt ++ (if prompt != "" then "\n" ++ prompt else ""))
  match provider [GemPart.text textPrompt, imagePart] with
  | .ok responseText => responseText
  | .error e => handleError e

/-- The `parts` array built by `processMultimodal` at gemini.js lines 153-162 before
execution reaches line 166: the multimodal text prompt, then the image part when an
image buffer was supplied.  No branch of the function ever pushes an audio part. -/
def multimodalPartsBeforeCrash (text : String) (imageBuffer : Option (List Nat)) :
    List GemPart :=
  [GemPart.text (buildMultimodalPrompt text)] ++
    (match imageBuffer with
     | some b => [GemPart.inlineData b "image/jpeg"]
     | none => [])

/-- gemini.js lines 149-184.  Line 166 reads the identifier `imageData`, which is not
defined in `processMultimodal` (it is local to `processImage`), so JavaScript raises
`ReferenceError: imageData is not defined` there on every call, before
`generateContent` is ever reached; the catch block at lines 180-183 rethrows it
wrapped as `AI multimodal processing failed: ...`. -/
def processMultimodal (text : String) (imageBuffer audioBuffer : Option (List Nat)) :
    Except String String :=
  let _parts := multimodalPartsBeforeCrash text imageBuffer
  let referenceError := "imageData is not defined"
  .error ("AI multimodal processing failed: " ++ referenceError)

/-- gemini.js lines 77-101: the first (shadowed) `processAudio` definition, which
builds its text prompt with `buildAudioPrompt` and returns `handleError`'s text on a
provider throw. -/
def processAudio_v1 (audioBuffer : List Nat) (mimeType prompt : String)
    (provider : List GemPart → Except String String) : String :=
  let audioPart := GemPart.inlineData audioBuffer mimeType
  let textPrompt := buildAudioPrompt prompt
  match provider [GemPart.text textPrompt, audioPart] with
  | .ok responseText => responseText
  | .error e => handleError e

/-- gemini.js line 205: the fallback used when `AUDIO_ANALYSIS_PROMPT` is empty. -/
def audioFallbackPrompt : String :=
  "Please analyze the following audio and provide a helpful, technical, and layman-friendly response."

/-- gemini.js line 205: `(AUDIO_ANALYSIS_PROMPT || fallback) + (prompt ? '\n'+prompt : '')`.
`audioAnalysisPrompt` is the module-level `AUDIO_ANALYSIS_PROMPT` loaded from
`audio_analysis_prompt.txt` at startup, left `''` when that file fails to load. -/
def sentAudioPrompt (audioAnalysisPrompt prompt : String) : String :=
  (if audioAnalysisPrompt != "" then audioAnalysisPrompt else audioFallbackPrompt) ++
    (if prompt != "" then "\n" ++ prompt else "")

/-- gemini.js lines 193-216: the second `processAudio` definition.  It rethrows a
provider error wrapped as `AI audio processing failed: ...` instead of returning
`handleError` text.  (The `!this.model.generateContent` guard at line 196 never
fires: the SDK model object always has `generateContent`.) -/
def processAudio_v2 (audioAnalysisPrompt : String) (audioBuffer : List Nat)
    (mimeType prompt : String) (provider : List GemPart → Except String String) :
    Except String String :=
  let audioPart := GemPart.inlineData audioBuffer mimeType
  let textPrompt := sentAudioPrompt audioAnalysisPrompt prompt
  match provider [GemPart.text textPrompt, audioPart] with
  | .ok responseText => .ok responseText
  | .error e => .error ("AI audio processing failed: " ++ e)

/-- JavaScript class semantics: when a class body defines the same method name twice,
the later definition wins, so every `processAudio` call dispatches to the second
definition (gemini.js lines 193-216) and the first (lines 77-101) is unreachable. -/
def processAudio := processAudio_v2

/-- First `{text}` entry of a parts payload (used to observe what prompt a call sent). -/
def firstTextPart : List GemPart → String
  | GemPart.text t :: _ => t
  | _ => ""

/-- C3: processMultimodal is claimed to build a parts list with exactly the present
modalities, send it, and return the response text.  In fact line 166 references the
undefined identifier `imageData`, so every call — with or without image and audio
buffers — throws `AI multimodal processing failed: imageData is not defined` before
anything is sent; and no code path attaches an audio part even when an audio buffer
is supplied. -/
theorem processMultimodal_reference_error :
    processMultimodal "describe this" (some [1, 2, 3]) (some [4, 5]) =
      .error "AI multimodal processing failed: imageData is not defined" ∧
    processMultimodal "hello" none none =
      .error "AI multimodal processing failed: imageData is not defined" ∧
    multimodalPartsBeforeCrash "describe this" (some [1, 2, 3]) =
      [GemPart.text (buildMultimodalPrompt "describe this"),
        GemPart.inlineData [1, 2, 3] "image/jpeg"] := by
  exact ⟨rfl, rfl, rfl⟩

/-- C4 counterexample: the message "audio stream glitch" contains none of "429",
"quota", "401", "API key", yet `handleError` classifies it with the media-error
message, not the generic (TransientError) message the claim prescribes for any such
message. -/
theorem handleError_media_counterexample :
    includes "audio stream glitch" "429" = false ∧
    includes "audio stream glitch" "quota" = false ∧
    includes "audio stream glitch" "401" = false ∧
    includes "audio stream glitch" "API key" = false ∧
    handleError "audio stream glitch" = audioProcessingErrorMsg ∧
    handleError "audio stream glitch" ≠ genericAIErrorMsg "audio stream glitch" := by
  refine ⟨rfl, rfl, rfl, rfl, rfl, ?_⟩
  decide

/-- C4 amended: a provider error containing "429" or "quota" is classified
QuotaExceeded; otherwise one containing "401" or "API key" is classified AuthError;
otherwise one containing "audio" or "media" is classified MediaError; any other
message gets the generic (TransientError) result. -/
theorem handleError_classification (message : String) :
    ((includes message "429" || includes message "quota") = true →
      handleError message = quotaExceededMsg) ∧
    ((includes message "429" || includes message "quota") = false →
      (includes message "401" || includes message "API key") = true →
      handleError message = apiKeyErrorMsg) ∧
    ((includes message "429" || includes message "quota") = false →
      (includes message "401" || includes message "API key") = false →
      (includes message "audio" || includes message "media") = true →
      handleError message = audioProcessingErrorMsg) ∧
    ((includes message "429" || includes message "quota") = false →
      (includes message "401" || includes message "API key") = false →
      (includes message "audio" || includes message "media") = false →
      handleError message = genericAIErrorMsg message) := by
  refine ⟨?_, ?_, ?_, ?_⟩
  · intro h1
    simp [handleError, h1]
  · intro h1 h2
    simp [handleError, h1, h2]
  · intro h1 h2 h3
    simp [handleError, h1, h2, h3]
  · intro h1 h2 h3
    simp [handleError, h1, h2, h3]

theorem handleError_classification_witness :
    handleError "HTTP 429" = quotaExceededMsg ∧
    handleError "bad API key" = apiKeyErrorMsg ∧
    handleError "media decode failed" = audioProcessingErrorMsg ∧
    handleError "network timeout" = genericAIErrorMsg "network timeout" :=
  ⟨(handleError_classification "HTTP 429").1 rfl,
   (handleError_classification "bad API key").2.1 rfl rfl,
   (handleError_classification "media decode failed").2.2.1 rfl rfl rfl,
   (handleError_classification "network timeout").2.2.2 rfl rfl rfl⟩

set_option maxRecDepth 20000 in
/-- C8: processAudio is claimed to embed the category default prompt
(music / speech / meeting / game / ambient) when no custom prompt is supplied.  The
effective `processAudio` (the second class definition, which shadows the first) never
calls `buildAudioPrompt`: with the prompt file unloaded (`AUDIO_ANALYSIS_PROMPT = ''`)
and no custom prompt it sends the one-line fallback, which mentions none of the
categories — while the shadowed default in `buildAudioPrompt` mentions all of them. -/
theorem processAudio_default_prompt_shadowed :
    processAudio = processAudio_v2 ∧
    processAudio "" [0, 1] "audio/wav" "" (fun parts => .ok (firstTextPart parts)) =
      .ok audioFallbackPrompt ∧
    sentAudioPrompt "" "" = audioFallbackPrompt ∧
    includes audioFallbackPrompt "music" = false ∧
    includes audioFallbackPrompt "meeting" = false ∧
    includes audioFallbackPrompt "game" = false ∧
    includes audioFallbackPrompt "ambient" = false ∧
    includes (buildAudioPrompt "") "music" = true ∧
    includes (buildAudioPrompt "") "speech" = true ∧
    includes (buildAudioPrompt "") "meeting" = true ∧
    includes (buildAudioPrompt "") "game" = true ∧
    includes (buildAudioPrompt "") "ambient" = true := by
  exact ⟨rfl, rfl, rfl, rfl, rfl, rfl, rfl, rfl, rfl, rfl, rfl, rfl⟩

/-- C10: processText and processImage never propagate a provider error: when the
provider throws, they return `handleError`'s formatted text as their ordinary string
result — the same type a genuine model response has — and when the provider answers,
they return its text verbatim. -/
theorem provider_error_not_propagated (detailedPrompt text context prompt : String)
    (imageBuffer : List Nat) (e : String) :
    processText detailedPrompt text context (fun _ => .error e) = handleError e ∧
    processImage detailedPrompt imageBuffer prompt (fun _ => .error e) = handleError e ∧
    (∀ t : String, processText detailedPrompt text context (fun _ => .ok t) = t) ∧
    (∀ t : String, processImage detailedPrompt imageBuffer prompt (fun _ => .ok t) = t) :=
  ⟨rfl, rfl, fun _ => rfl, fun _ => rfl⟩

/-! ## Screen capture (`src/screen/capturer.js`, class `ScreenCapturer`)

The code resizes through Jimp's `scaleToFit`, whose factor is
`w/h > W/H ? h/H : w/W` for target box `(w, h)` and bitmap `(W, H)`
(i.e. the minimum of the two per-axis ratios), followed by `scale`, which
rounds each scaled dimension; the float arithmetic is modelled over ℚ.
The platform `screenshot` call and Jimp decode/crop/encode are external
collaborators and appear as parameters carrying their outcomes. -/

/-- Jimp scaleToFit factor for fitting a `w × h` bitmap into `maxW × maxH`. -/
def scaleFactor (w h maxW maxH : ℕ) : ℚ :=
  if (maxW : ℚ) / maxH > (w : ℚ) / h then (maxH : ℚ) / h else (maxW : ℚ) / w

/-- JavaScript `Math.round` on a non-negative rational. -/
def jsRound (x : ℚ) : ℕ := (round x).toNat

/-- Dimensions produced by Jimp `scaleToFit(maxW, maxH)` on a `w × h` bitmap. -/
def scaleToFit (w h maxW maxH : ℕ) : ℕ × ℕ :=
  (jsRound ((w : ℚ) * scaleFactor w h maxW maxH),
    jsRound ((h : ℚ) * scaleFactor w h maxW maxH))

/-- An encoded capture result: pixel dimensions, MIME type, JPEG quality. -/
structure CapturedImage where
  width : ℕ
  height : ℕ
  mimeType : String
  quality : ℕ
  deriving DecidableEq, Repr

/-- capturer.js lines 35-63: capture the screen (the environment supplies the raw
`w × h` screenshot), scale to fit 1920×1080 only when a dimension exceeds the bound
(lines 48-51), then encode as JPEG at `Math.round(quality * 100)` where `quality` is
the configured option (default `0.8`, line 16). -/
def captureScreen (w h : ℕ) (optQuality : ℚ) : CapturedImage :=
  let dims := if w > 1920 ∨ h > 1080 then scaleToFit w h 1920 1080 else (w, h)
  { width := dims.1, height := dims.2, mimeType := "image/jpeg",
    quality := jsRound (optQuality * 100) }

theorem scaleFactor_eq_min (w h maxW maxH : ℕ) (hw : 0 < w) (hh : 0 < h)
    (hmW : 0 < maxW) (hmH : 0 < maxH) :
    scaleFactor w h maxW maxH = min ((maxW : ℚ) / w) ((maxH : ℚ) / h) := by
  have hw' : (0 : ℚ) < w := by exact_mod_cast hw
  have hh' : (0 : ℚ) < h := by exact_mod_cast hh
  have hmW' : (0 : ℚ) < maxW := by exact_mod_cast hmW
  have hmH' : (0 : ℚ) < maxH := by exact_mod_cast hmH
  unfold scaleFactor
  rcases lt_or_le ((w : ℚ) / h) ((maxW : ℚ) / maxH) with hlt | hle
  · rw [if_pos hlt]
    have h1 : (w : ℚ) * maxH < maxW * h := (div_lt_div_iff hh' hmH').mp hlt
    have h2 : (maxH : ℚ) / h ≤ (maxW : ℚ) / w := by
      rw [div_le_div_iff hh' hw']
      nlinarith
    exact (min_eq_right h2).symm
  · rw [if_neg (not_lt.mpr hle)]
    have h1 : (maxW : ℚ) * h ≤ w * maxH := (div_le_div_iff hmH' hh').mp hle
    have h2 : (maxW : ℚ) / w ≤ (maxH : ℚ) / h := by
      rw [div_le_div_iff hw' hh']
      nlinarith
    exact (min_eq_left h2).symm

theorem mul_scaleFactor_le_left (w h maxW maxH : ℕ) (hw : 0 < w) (hh : 0 < h)
    (hmW : 0 < maxW) (hmH : 0 < maxH) :
    (w : ℚ) * scaleFactor w h maxW maxH ≤ maxW := by
  have hw' : (0 : ℚ) < w := by exact_mod_cast hw
  rw [scaleFactor_eq_min w h maxW maxH hw hh hmW hmH]
  calc (w : ℚ) * min ((maxW : ℚ) / w) ((maxH : ℚ) / h)
      ≤ (w : ℚ) * ((maxW : ℚ) / w) :=
        mul_le_mul_of_nonneg_left (min_le_left _ _) (le_of_lt hw')
    _ = maxW := by field_simp

theorem mul_scaleFactor_le_right (w h maxW maxH : ℕ) (hw : 0 < w) (hh : 0 < h)
    (hmW : 0 < maxW) (hmH : 0 < maxH) :
    (h : ℚ) * scaleFactor w h maxW maxH ≤ maxH := by
  have hh' : (0 : ℚ) < h := by exact_mod_cast hh
  rw [scaleFactor_eq_min w h maxW maxH hw hh hmW hmH]
  calc (h : ℚ) * min ((maxW : ℚ) / w) ((maxH : ℚ) / h)
      ≤ (h : ℚ) * ((maxH : ℚ) / h) :=
        mul_le_mul_of_nonneg_left (min_le_right _ _) (le_of_lt hh')
    _ = maxH := by field_simp

theorem scaleFactor_pos (w h maxW maxH : ℕ) (hw : 0 < w) (hh : 0 < h)
    (hmW : 0 < maxW) (hmH : 0 < maxH) :
    0 < scaleFactor w h maxW maxH := by
  have hw' : (0 : ℚ) < w := by exact_mod_cast hw
  have hh' : (0 : ℚ) < h := by exact_mod_cast hh
  have hmW' : (0 : ℚ) < maxW := by exact_mod_cast hmW
  have hmH' : (0 : ℚ) < maxH := by exact_mod_cast hmH
  rw [scaleFactor_eq_min w h maxW maxH hw hh hmW hmH]
  exact lt_min (div_pos hmW' hw') (div_pos hmH' hh')

theorem scaleFactor_lt_one (w h maxW maxH : ℕ) (hw : 0 < w) (hh : 0 < h)
    (hmW : 0 < maxW) (hmH : 0 < maxH) (hcond : maxW < w ∨ maxH < h) :
    scaleFactor w h maxW maxH < 1 := by
  rw [scaleFactor_eq_min w h maxW maxH hw hh hmW hmH]
  rcases hcond with hc | hc
  · have hw' : (0 : ℚ) < w := by exact_mod_cast hw
    exact lt_of_le_of_lt (min_le_left _ _)
      ((div_lt_one hw').mpr (by exact_mod_cast hc))
  · have hh' : (0 : ℚ) < h := by exact_mod_cast hh
    exact lt_of_le_of_lt (min_le_right _ _)
      ((div_lt_one hh').mpr (by exact_mod_cast hc))

theorem jsRound_le (x : ℚ) (c : ℕ) (hx : x ≤ c) : jsRound x ≤ c := by
  unfold jsRound
  have h1 : round x ≤ round ((c : ℚ)) := by
    rw [round_eq, round_eq]
    exact Int.floor_mono (by linarith)
  rw [round_natCast] at h1
  omega

/-- C5: captureScreen keeps the dimensions of an image already within 1920×1080
unchanged (no upscaling ever); when width exceeds 1920 or height exceeds 1080 it
scales down — both output dimensions within the bounds, and both equal to the input
dimensions scaled by one common factor strictly between 0 and 1 and then rounded
(aspect ratio preserved within rounding) — and the result is re-encoded as JPEG at
the configured quality, 80 for the default option value 0.8. -/
theorem captureScreen_normalization (w h : ℕ) (q : ℚ) (hw : 0 < w) (hh : 0 < h) :
    (¬(w > 1920 ∨ h > 1080) →
      (captureScreen w h q).width = w ∧ (captureScreen w h q).height = h) ∧
    ((w > 1920 ∨ h > 1080) →
      (captureScreen w h q).width ≤ 1920 ∧ (captureScreen w h q).height ≤ 1080 ∧
      ∃ f : ℚ, 0 < f ∧ f < 1 ∧
        (captureScreen w h q).width = jsRound (w * f) ∧
        (captureScreen w h q).height = jsRound (h * f)) ∧
    (captureScreen w h q).mimeType = "image/jpeg" ∧
    (captureScreen w h q).quality = jsRound (q * 100) ∧
    (captureScreen w h (4 / 5)).quality = 80 := by
  refine ⟨?_, ?_, rfl, rfl, ?_⟩
  · intro hcond
    simp [captureScreen, hcond]
  · intro hcond
    have h1 : (captureScreen w h q).width =
        jsRound ((w : ℚ) * scaleFactor w h 1920 1080) := by
      simp [captureScreen, hcond, scaleToFit]
    have h2 : (captureScreen w h q).height =
        jsRound ((h : ℚ) * scaleFactor w h 1920 1080) := by
      simp [captureScreen, hcond, scaleToFit]
    refine ⟨?_, ?_, scaleFactor w h 1920 1080,
      scaleFactor_pos w h 1920 1080 hw hh (by norm_num) (by norm_num),
      scaleFactor_lt_one w h 1920 1080 hw hh (by norm_num) (by norm_num) hcond,
      h1, h2⟩
    · rw [h1]
      exact jsRound_le _ _
        (mul_scaleFactor_le_left w h 1920 1080 hw hh (by norm_num) (by norm_num))
    · rw [h2]
      exact jsRound_le _ _
        (mul_scaleFactor_le_right w h 1920 1080 hw hh (by norm_num) (by norm_num))
  · show jsRound (4 / 5 * 100) = 80
    have h45 : (4 : ℚ) / 5 * 100 = ((80 : ℕ) : ℚ) := by norm_num
    unfold jsRound
    rw [h45, round_natCast]
    simp

theorem captureScreen_normalization_witness :
    (captureScreen 3840 2160 (4 / 5)).width ≤ 1920 ∧
    (captureScreen 3840 2160 (4 / 5)).height ≤ 1080 :=
  ⟨((captureScreen_normalization 3840 2160 (4 / 5) (by norm_num) (by norm_num)).2.1
      (Or.inl (by norm_num))).1,
   ((captureScreen_normalization 3840 2160 (4 / 5) (by norm_num) (by norm_num)).2.1
      (Or.inl (by norm_num))).2.1⟩

/-- A crop rectangle as the renderer sends it (`{x, y, width, height}`). -/
structure Region where
  x : ℤ
  y : ℤ
  width : ℤ
  height : ℤ
  deriving DecidableEq, Repr

/-- capturer.js line 79: `jimpImage.crop(region.x, region.y, region.width,
region.height)` — the caller's rectangle reaches the library crop verbatim; no
clamping code exists anywhere in `captureRegion`. -/
def cropArgs (region : Region) : Region := region

/-- Spec-side definition for the refinement comparison only (not from the source):
the spec's words "rect coordinates are clamped to the captured bounds", read as
clamping the origin into the captured `boundsW × boundsH` image and the extent to
what remains. -/
def clampRegionSpec (boundsW boundsH : ℤ) (r : Region) : Region :=
  let cx := max 0 (min r.x boundsW)
  let cy := max 0 (min r.y boundsH)
  { x := cx, y := cy,
    width := max 0 (min r.width (boundsW - cx)),
    height := max 0 (min r.height (boundsH - cy)) }

/-- capturer.js lines 70-90.  `captureAndCrop` is the combined outcome of the
full-screen capture (line 75) and the library crop (lines 78-79): the cropped image,
or the message of whatever error either step threw.  The catch at lines 86-89 wraps
any error message in `Region screenshot failed: ...`; the success path re-encodes at
`Math.round(quality * 100)`. -/
def captureRegion (captureAndCrop : Except String CapturedImage) (optQuality : ℚ) :
    Except String CapturedImage :=
  match captureAndCrop with
  | .ok cropped =>
      .ok { cropped with
            mimeType := "image/jpeg"
            quality := jsRound (optQuality * 100) }
  | .error e => .error ("Region screenshot failed: " ++ e)

/-- C6 counterexample: the region `(x = 5000, y = 0, 100 × 100)` lies outside a
1920×1080 capture and has non-zero area, yet `captureRegion` hands it to the crop
unclamped (`cropArgs` is the identity, differing from the spec's clamped rectangle),
and an error thrown by the crop surfaces as the generic `Region screenshot failed:`
message, not as an `InvalidRegion` failure. -/
theorem captureRegion_no_clamping_counterexample :
    cropArgs { x := 5000, y := 0, width := 100, height := 100 } =
      { x := 5000, y := 0, width := 100, height := 100 } ∧
    clampRegionSpec 1920 1080 { x := 5000, y := 0, width := 100, height := 100 } ≠
      { x := 5000, y := 0, width := 100, height := 100 } ∧
    captureRegion (.error "rect access out of image range") (4 / 5) =
      .error ("Region screenshot failed: rect access out of image range") :=
  ⟨rfl, by decide, rfl⟩

/-- C6 amended: captureRegion passes the region coordinates to the library crop
unchanged — it performs no clamping — and any capture or crop failure surfaces as
the generic `Region screenshot failed: ...` error regardless of the region's area;
no `InvalidRegion` error and no zero-area special case exist in the code, and every
crop the library accepts succeeds re-encoded as JPEG. -/
theorem captureRegion_passthrough (r : Region) (q : ℚ) (e : String)
    (img : CapturedImage) :
    cropArgs r = r ∧
    captureRegion (.error e) q = .error ("Region screenshot failed: " ++ e) ∧
    captureRegion (.error e) q ≠ .error "InvalidRegion" ∧
    captureRegion (.ok img) q =
      .ok { img with mimeType := "image/jpeg", quality := jsRound (q * 100) } := by
  refine ⟨rfl, rfl, ?_, rfl⟩
  intro hcontra
  have h2 : "Region screenshot failed: " ++ e = "InvalidRegion" := by
    have h1 : (Except.error ("Region screenshot failed: " ++ e) :
        Except String CapturedImage) = .error "InvalidRegion" := hcontra
    simpa using h1
  have h3 := congrArg String.length h2
  rw [String.length_append] at h3
  have h4 : ("Region screenshot failed: ").length = 26 := rfl
  have h5 : ("InvalidRegion").length = 13 := rfl
  omega

/-- capturer.js lines 130-137: the per-display processing inside the loop — resize
to fit 1920×1080 when oversized, then JPEG at fixed quality 80. -/
def processDisplay (dims : ℕ × ℕ) : CapturedImage :=
  let out := if dims.1 > 1920 ∨ dims.2 > 1080 then
      scaleToFit dims.1 dims.2 1920 1080
    else dims
  { width := out.1, height := out.2, mimeType := "image/jpeg", quality := 80 }

/-- capturer.js lines 119-152, given that `listDisplays` succeeded: the loop body is
wrapped in a per-display try/catch (lines 128-142), so a display whose capture
throws is logged and skipped while the loop continues; `results` holds each
display's capture outcome in display order. -/
def captureAllDisplays : List (Except String (ℕ × ℕ)) → List CapturedImage
  | [] => []
  | .ok dims :: rest => processDisplay dims :: captureAllDisplays rest
  | .error _ :: rest => captureAllDisplays rest

/-- Whether a display's capture attempt failed. -/
def isCaptureError : Except String (ℕ × ℕ) → Bool
  | .error _ => true
  | .ok _ => false

/-- The successful capture, if any. -/
def okCapture : Except String (ℕ × ℕ) → Option (ℕ × ℕ)
  | .ok dims => some dims
  | .error _ => none

/-- C7: for an enumeration of n displays of which exactly k fail to capture,
captureAllDisplays returns exactly n - k processed images, namely the successful
captures in display order, and never raises (it is a total function of the
per-display outcomes). -/
theorem captureAllDisplays_partial (results : List (Except String (ℕ × ℕ))) :
    (captureAllDisplays results).length =
      results.length - results.countP isCaptureError ∧
    captureAllDisplays results = (results.filterMap okCapture).map processDisplay := by
  induction results with
  | nil => exact ⟨rfl, rfl⟩
  | cons head rest ih =>
    obtain ⟨ih1, ih2⟩ := ih
    have hle : rest.countP isCaptureError ≤ rest.length := List.countP_le_length _
    cases head with
    | ok dims =>
      refine ⟨?_, ?_⟩
      · simp only [captureAllDisplays, List.length_cons, List.countP_cons,
          isCaptureError, if_neg, Bool.false_eq_true, ite_false]
        omega
      · simp [captureAllDisplays, okCapture, ih2]
    | error e =>
      refine ⟨?_, ?_⟩
      · simp only [captureAllDisplays, List.length_cons, List.countP_cons,
          isCaptureError, ite_true]
        omega
      · simp [captureAllDisplays, okCapture, ih2]

/-- A decoded Jimp bitmap: dimensions plus the accumulated pixel adjustments
(`contrast`/`brightness` record the amounts applied, abstracting the pixel-level
operation). -/
structure JimpImage where
  width : ℕ
  height : ℕ
  contrast : ℚ
  brightness : ℚ
  deriving DecidableEq, Repr

/-- An image buffer: either raw input bytes or a Jimp-encoded JPEG. -/
inductive ImgBuffer where
  | raw (bytes : List ℕ)
  | jpeg (image : JimpImage) (quality : ℕ)
  deriving DecidableEq, Repr

/-- capturer.js lines 216-223 inside `optimizeForAI`: scale to fit 2048×2048 only
when a dimension exceeds 2048, then `contrast(0.1).brightness(0.05)`. -/
def optimizeTransform (image : JimpImage) : JimpImage :=
  let dims := if image.width > 2048 ∨ image.height > 2048 then
      scaleToFit image.width image.height 2048 2048
    else (image.width, image.height)
  { width := dims.1
    height := dims.2
    contrast := image.contrast + 1 / 10
    brightness := image.brightness + 1 / 20 }

/-- capturer.js lines 212-235.  `decoded` is the outcome of `Jimp.read` on the input
buffer and `encodeOk` whether `getBufferAsync` succeeds; any failure lands in the
catch at lines 231-234, which returns the original buffer instead of throwing. -/
def optimizeForAI (imageBuffer : ImgBuffer) (decoded : Except String JimpImage)
    (encodeOk : Bool) : ImgBuffer :=
  match decoded with
  | .error _ => imageBuffer
  | .ok image =>
      if encodeOk then ImgBuffer.jpeg (optimizeTransform image) 85
      else imageBuffer

/-- C9: optimizeForAI never raises (it is a total function of the processing
outcomes): on any processing failure — decode or re-encode — it returns the original
input buffer unmodified, and on success it returns the image scaled to fit within
2048×2048 exactly when a dimension exceeded 2048 (dimensions unchanged otherwise),
with the fixed contrast/brightness adjustment applied, re-encoded as JPEG at
quality 85. -/
theorem optimizeForAI_best_effort (imageBuffer : ImgBuffer) (image : JimpImage)
    (e : String) (hw : 0 < image.width) (hh : 0 < image.height) :
    optimizeForAI imageBuffer (.error e) true = imageBuffer ∧
    optimizeForAI imageBuffer (.error e) false = imageBuffer ∧
    optimizeForAI imageBuffer (.ok image) false = imageBuffer ∧
    optimizeForAI imageBuffer (.ok image) true =
      ImgBuffer.jpeg (optimizeTransform image) 85 ∧
    (image.width > 2048 ∨ image.height > 2048 →
      (optimizeTransform image).width ≤ 2048 ∧
      (optimizeTransform image).height ≤ 2048) ∧
    (¬(image.width > 2048 ∨ image.height > 2048) →
      (optimizeTransform image).width = image.width ∧
      (optimizeTransform image).height = image.height) ∧
    (optimizeTransform image).contrast = image.contrast + 1 / 10 ∧
    (optimizeTransform image).brightness = image.brightness + 1 / 20 := by
  refine ⟨rfl, rfl, rfl, rfl, ?_, ?_, rfl, rfl⟩
  · intro hcond
    have h1 : (optimizeTransform image).width =
        jsRound ((image.width : ℚ) * scaleFactor image.width image.height 2048 2048) := by
      simp [optimizeTransform, hcond, scaleToFit]
    have h2 : (optimizeTransform image).height =
        jsRound ((image.height : ℚ) * scaleFactor image.width image.height 2048 2048) := by
      simp [optimizeTransform, hcond, scaleToFit]
    constructor
    · rw [h1]
      exact jsRound_le _ _ (mul_scaleFactor_le_left image.width image.height 2048 2048
        hw hh (by norm_num) (by norm_num))
    · rw [h2]
      exact jsRound_le _ _ (mul_scaleFactor_le_right image.width image.height 2048 2048
        hw hh (by norm_num) (by norm_num))
  · intro hcond
    constructor
    · simp [optimizeTransform, hcond]
    · simp [optimizeTransform, hcond]

theorem optimizeForAI_best_effort_witness :
    optimizeForAI (ImgBuffer.raw [1, 2]) (.error "decode failure") true =
      ImgBuffer.raw [1, 2] ∧
    (optimizeTransform
        { width := 4096, height := 2048, contrast := 0, brightness := 0 }).width
      ≤ 2048 :=
  ⟨(optimizeForAI_best_effort (ImgBuffer.raw [1, 2])
      { width := 4096, height := 2048, contrast := 0, brightness := 0 }
      "decode failure" (by norm_num) (by norm_num)).1,
   ((optimizeForAI_best_effort (ImgBuffer.raw [1, 2])
      { width := 4096, height := 2048, contrast := 0, brightness := 0 }
      "decode failure" (by norm_num) (by norm_num)).2.2.2.2.1
      (Or.inl (by norm_num))).1⟩
